import Mathlib

/-!
Verification of the SoundMap noise-recording application.

The development shallowly embeds the core logic of the app:
the metering-to-decibel conversion (src/utils/audio.ts), the recording
session controller (src/hooks/useRecording.ts), the recording store
(src/database/DatabaseService.ts), the time filter and the spatial
selection with haversine distance (App.tsx).

JS numbers are modelled as exact rationals; NaN and null inputs to the
decibel conversion are modelled by an explicit inductive wrapper; the
transcendental haversine formula is modelled over the reals.
-/

namespace SoundMap

/-- A JS value that reaches the metering conversion: null, NaN, or a number. -/
inductive JsVal where
  | null
  | nan
  | num (q : ℚ)
deriving DecidableEq

/-- JS Math.round: round half toward positive infinity. -/
def jsRound (q : ℚ) : ℤ := ⌊q + 1 / 2⌋

/-- Round to one decimal place, as the source does with Math.round(x * 10) / 10. -/
def round1 (q : ℚ) : ℚ := (jsRound (q * 10) : ℚ) / 10

/-- Embeds convertMeteringToDecibels from src/utils/audio.ts:
null or NaN input gives null; otherwise round to one decimal place,
add the calibration constant 90, and floor the result at 0. -/
def convertMeteringToDecibels : JsVal → Option ℚ
  | .null => none
  | .nan => none
  | .num metering =>
      let normalized := round1 metering
      let calibration : ℚ := 90
      let level := normalized + calibration
      some (if level > 0 then level else 0)

/-- A row of the recordings table (src/types, database schema in queries.ts).
The optional columns duration, averageDecibels, peakDecibels are nullable. -/
structure RecordingEntry where
  id : ℕ
  uri : String
  latitude : ℚ
  longitude : ℚ
  timestamp : ℤ
  duration : Option ℚ
  averageDecibels : Option ℚ
  peakDecibels : Option ℚ
deriving DecidableEq

/-- The JS coercion value-or-null used in DatabaseService.saveRecording
(the expression value || null): a falsy number, i.e. 0, becomes null. -/
def jsOrNull (q : ℚ) : Option ℚ := if q = 0 then none else some q

/-- Identity assigned by the store on insert (AUTOINCREMENT row id). -/
def nextId (store : List RecordingEntry) : ℕ := store.length + 1

/-- Embeds DatabaseService.saveRecording: inserts one row with timestamp
taken at call time; the three optional metric arguments go through the
falsy-to-null coercion value || null. Returns the new table and the new id. -/
def saveRecording (store : List RecordingEntry) (uri : String)
    (latitude longitude : ℚ) (duration averageDecibels peakDecibels : ℚ)
    (now : ℤ) : List RecordingEntry × ℕ :=
  let id := nextId store
  (store ++ [{ id := id, uri := uri, latitude := latitude, longitude := longitude,
               timestamp := now,
               duration := jsOrNull duration,
               averageDecibels := jsOrNull averageDecibels,
               peakDecibels := jsOrNull peakDecibels }], id)

/-- A current location as delivered by the location provider. -/
structure Coords where
  latitude : ℚ
  longitude : ℚ
deriving DecidableEq

/-- The mutable session state of useRecording: the isRecording flag and
the running aggregate refs levelSumRef, levelCountRef, liveMaxRef. -/
structure SessionState where
  isRecording : Bool
  levelSum : ℚ
  levelCount : ℕ
  liveMax : ℚ
deriving DecidableEq

/-- The controller before any session: not recording, aggregates zero. -/
def idleState : SessionState := ⟨false, 0, 0, 0⟩

/-- Outcome of a start request. -/
inductive StartOutcome where
  | locationUnavailable
  | started
deriving DecidableEq

/-- Observable result of startRecording: the new state, the outcome
reported to the user, and whether AudioService.startRecording was invoked. -/
structure StartResult where
  state : SessionState
  outcome : StartOutcome
  captureStartInvoked : Bool
deriving DecidableEq

/-- Embeds startRecording from src/hooks/useRecording.ts: with no current
location it alerts and returns without touching anything; otherwise it
resets the aggregate refs, starts the audio capture and sets isRecording. -/
def startRecording (loc : Option Coords) (s : SessionState) : StartResult :=
  match loc with
  | none => ⟨s, .locationUnavailable, false⟩
  | some _ =>
      ⟨{ isRecording := true, levelSum := 0, levelCount := 0, liveMax := 0 },
       .started, true⟩

/-- Embeds the status listener installed by startRecording: convert the raw
metering value; on a non-null level update the running max (first sample
replaces the initial null), accumulate sum and count. -/
def meterCallback (raw : JsVal) (s : SessionState) : SessionState :=
  match convertMeteringToDecibels raw with
  | none => s
  | some levelDb =>
      { s with
        liveMax := if s.levelCount = 0 then levelDb else max s.liveMax levelDb,
        levelSum := s.levelSum + levelDb,
        levelCount := s.levelCount + 1 }

/-- The denominator used for the final average in stopRecording:
levelCountRef.current || 1, so a zero count is replaced by 1. -/
def stopDenominator (s : SessionState) : ℚ :=
  if s.levelCount = 0 then 1 else (s.levelCount : ℚ)

/-- Observable result of stopRecording: final state, resulting store table,
the computed final aggregates, and which of the two user callbacks fired. -/
structure StopResult where
  state : SessionState
  store : List RecordingEntry
  finalAverageDb : ℚ
  finalPeakDb : ℚ
  successReported : Bool
  errorReported : Bool
deriving DecidableEq

/-- Embeds stopRecording from src/hooks/useRecording.ts. The finalize
argument is the outcome of AudioService.stopRecording: none when that await
throws, otherwise the artifact uri and the reported duration. storeWriteOk
is false when DatabaseService.saveRecording throws. The control flow mirrors
the source try/catch: the aggregate refs are reset before the finalize call;
isRecording is cleared only after a successful finalize; the store write and
the success callback run only when a current location exists; any throw is
caught and reported through the error callback. -/
def stopRecording (finalize : Option (String × ℚ)) (storeWriteOk : Bool)
    (loc : Option Coords) (s : SessionState) (store : List RecordingEntry)
    (now : ℤ) : StopResult :=
  let finalAverageDb := s.levelSum / stopDenominator s
  let finalPeakDb := if s.liveMax = 0 then 0 else s.liveMax
  let s1 : SessionState := { s with levelSum := 0, levelCount := 0 }
  match finalize with
  | none => ⟨s1, store, finalAverageDb, finalPeakDb, false, true⟩
  | some (uri, duration) =>
      let s2 : SessionState := { s1 with isRecording := false }
      match loc with
      | none => ⟨s2, store, finalAverageDb, finalPeakDb, false, false⟩
      | some c =>
          if storeWriteOk then
            let saved := saveRecording store uri c.latitude c.longitude
              duration finalAverageDb finalPeakDb now
            ⟨s2, saved.1, finalAverageDb, finalPeakDb, true, false⟩
          else
            ⟨s2, store, finalAverageDb, finalPeakDb, false, true⟩

/-- Embeds the filteredRecordings memo of App.tsx: start 0 is the sentinel
meaning no filtering; otherwise keep timestamps in the inclusive window. -/
def filterByWindow (all : List RecordingEntry) (start endTs : ℤ) :
    List RecordingEntry :=
  if start = 0 then all
  else all.filter (fun r => decide (start ≤ r.timestamp ∧ r.timestamp ≤ endTs))

/-- JS Math.atan2 on real arguments. -/
noncomputable def atan2 (y x : ℝ) : ℝ :=
  if 0 < x then Real.arctan (y / x)
  else if x < 0 then
    if 0 ≤ y then Real.arctan (y / x) + Real.pi
    else Real.arctan (y / x) - Real.pi
  else
    if 0 < y then Real.pi / 2
    else if y < 0 then -(Real.pi / 2)
    else 0

/-- The intermediate quantity a of calculateDistance in App.tsx. -/
noncomputable def haversineTerm (lat1 lon1 lat2 lon2 : ℝ) : ℝ :=
  let phi1 := lat1 * Real.pi / 180
  let phi2 := lat2 * Real.pi / 180
  let deltaPhi := (lat2 - lat1) * Real.pi / 180
  let deltaLambda := (lon2 - lon1) * Real.pi / 180
  Real.sin (deltaPhi / 2) * Real.sin (deltaPhi / 2) +
    Real.cos phi1 * Real.cos phi2 *
      Real.sin (deltaLambda / 2) * Real.sin (deltaLambda / 2)

/-- Embeds calculateDistance from App.tsx: the haversine great-circle
distance in meters with Earth radius 6371e3. -/
noncomputable def calculateDistance (lat1 lon1 lat2 lon2 : ℝ) : ℝ :=
  let bigR : ℝ := 6371000
  let a := haversineTerm lat1 lon1 lat2 lon2
  let c := 2 * atan2 (Real.sqrt a) (Real.sqrt (1 - a))
  bigR * c

/-- The constant CLICK_OVERLAP_FACTOR of App.tsx. -/
def CLICK_OVERLAP_FACTOR : ℚ := 3500

open Classical in
/-- Embeds the selection computed by handleMarkerPress in App.tsx: with no
region, only the tapped recording; otherwise every candidate within
CLICK_OVERLAP_FACTOR times the region latitude span, sorted by timestamp
descending. -/
noncomputable def selectNearby (recording : RecordingEntry)
    (latitudeDelta : Option ℚ) (candidates : List RecordingEntry) :
    List RecordingEntry :=
  match latitudeDelta with
  | none => [recording]
  | some span =>
      let visualRadius : ℝ := (CLICK_OVERLAP_FACTOR : ℝ) * (span : ℝ)
      let nearby := candidates.filter (fun r =>
        decide (calculateDistance (recording.latitude : ℝ) (recording.longitude : ℝ)
          (r.latitude : ℝ) (r.longitude : ℝ) ≤ visualRadius))
      nearby.mergeSort (fun a b => decide (b.timestamp ≤ a.timestamp))

theorem haversineTerm_self (lat lon : ℝ) : haversineTerm lat lon lat lon = 0 := by
  simp [haversineTerm]

theorem atan2_zero_one : atan2 0 1 = 0 := by
  norm_num [atan2, Real.arctan_zero]

theorem calculateDistance_self (lat lon : ℝ) : calculateDistance lat lon lat lon = 0 := by
  simp [calculateDistance, haversineTerm_self, atan2_zero_one]

theorem haversineTerm_comm (lat1 lon1 lat2 lon2 : ℝ) :
    haversineTerm lat1 lon1 lat2 lon2 = haversineTerm lat2 lon2 lat1 lon1 := by
  simp only [haversineTerm]
  have h1 : (lat1 - lat2) * Real.pi / 180 / 2 =
      -((lat2 - lat1) * Real.pi / 180 / 2) := by ring
  have h2 : (lon1 - lon2) * Real.pi / 180 / 2 =
      -((lon2 - lon1) * Real.pi / 180 / 2) := by ring
  rw [h1, h2, Real.sin_neg, Real.sin_neg]
  ring

theorem calculateDistance_comm (lat1 lon1 lat2 lon2 : ℝ) :
    calculateDistance lat1 lon1 lat2 lon2 = calculateDistance lat2 lon2 lat1 lon1 := by
  simp only [calculateDistance]
  rw [haversineTerm_comm lat1 lon1 lat2 lon2]

/-- C10: the haversine distance function returns 0 for the distance between
any point and itself, and is symmetric: d(a,b) = d(b,a) for all points. -/
theorem c10_distance_self_and_symmetric :
    (∀ lat lon : ℝ, calculateDistance lat lon lat lon = 0) ∧
    (∀ lat1 lon1 lat2 lon2 : ℝ,
      calculateDistance lat1 lon1 lat2 lon2 = calculateDistance lat2 lon2 lat1 lon1) :=
  ⟨calculateDistance_self, calculateDistance_comm⟩

/-- C9: a start request without a valid current location reports
location-unavailable, leaves the controller state unchanged (so an Idle
controller stays Idle), and never invokes the capture service start. -/
theorem c9_start_without_location :
    ∀ s : SessionState,
      (startRecording none s).outcome = StartOutcome.locationUnavailable ∧
      (startRecording none s).state = s ∧
      (startRecording none s).captureStartInvoked = false :=
  fun _ => ⟨rfl, rfl, rfl⟩

/-- C5: the metering conversion returns null exactly on null or NaN input;
on a numeric input it returns round1(raw) + 90 when that sum is nonnegative
and exactly 0 when the sum is negative. -/
theorem c5_convert_metering_spec :
    (∀ v : JsVal,
      convertMeteringToDecibels v = none ↔ v = JsVal.null ∨ v = JsVal.nan) ∧
    (∀ m : ℚ, 0 ≤ round1 m + 90 →
      convertMeteringToDecibels (JsVal.num m) = some (round1 m + 90)) ∧
    (∀ m : ℚ, round1 m + 90 < 0 →
      convertMeteringToDecibels (JsVal.num m) = some 0) := by
  refine ⟨?_, ?_, ?_⟩
  · intro v
    cases v with
    | null => simp [convertMeteringToDecibels]
    | nan => simp [convertMeteringToDecibels]
    | num m => simp [convertMeteringToDecibels]
  · intro m h
    simp only [convertMeteringToDecibels]
    split_ifs with hpos
    · rfl
    · have h0 : round1 m + 90 = 0 := le_antisymm (not_lt.mp hpos) h
      rw [h0]
  · intro m h
    simp only [convertMeteringToDecibels]
    split_ifs with hpos
    · linarith
    · rfl

/-- C5 witness: concrete evaluations discharging both hypotheses, at raw
input 0 (sum 90 nonnegative) and raw input -100 (sum -10 negative). -/
theorem c5_convert_metering_witness :
    (0 ≤ round1 0 + 90 ∧
      convertMeteringToDecibels (JsVal.num 0) = some (round1 0 + 90)) ∧
    (round1 (-100) + 90 < 0 ∧
      convertMeteringToDecibels (JsVal.num (-100)) = some 0) :=
  ⟨⟨by norm_num [round1, jsRound],
    c5_convert_metering_spec.2.1 0 (by norm_num [round1, jsRound])⟩,
   ⟨by norm_num [round1, jsRound],
    c5_convert_metering_spec.2.2 (-100) (by norm_num [round1, jsRound])⟩⟩

/-- C6: stopping right after a start during which zero metering callbacks
fired uses denominator 1 (not 0) and computes a final average of exactly 0,
whatever the finalize outcome, location and store behavior at stop. -/
theorem c6_zero_metering_average :
    ∀ (c : Coords) (s0 : SessionState) (finalize : Option (String × ℚ))
      (storeWriteOk : Bool) (loc : Option Coords)
      (store : List RecordingEntry) (now : ℤ),
      stopDenominator (startRecording (some c) s0).state = 1 ∧
      (stopRecording finalize storeWriteOk loc
          (startRecording (some c) s0).state store now).finalAverageDb = 0 := by
  intro c s0 finalize storeWriteOk loc store now
  constructor
  · rfl
  · rcases finalize with _ | ⟨uri, dur⟩ <;> rcases loc with _ | c2 <;>
      cases storeWriteOk <;>
      simp [stopRecording, startRecording, stopDenominator]

/-- C7: with start 0 the time filter returns the input unchanged; with
nonzero start it keeps exactly the recordings whose timestamp lies in the
inclusive window, preserving relative order (the result is a sublist). -/
theorem c7_filter_by_window_spec :
    ∀ (all : List RecordingEntry) (start endTs : ℤ),
      (start = 0 → filterByWindow all start endTs = all) ∧
      (start ≠ 0 →
        (∀ r, r ∈ filterByWindow all start endTs ↔
            r ∈ all ∧ start ≤ r.timestamp ∧ r.timestamp ≤ endTs) ∧
        (filterByWindow all start endTs).Sublist all) := by
  intro all start endTs
  constructor
  · intro h
    simp [filterByWindow, h]
  · intro h
    constructor
    · intro r
      simp [filterByWindow, h, List.mem_filter]
    · simp only [filterByWindow, if_neg h]
      exact List.filter_sublist all

/-- Sample recordings for witnesses. -/
def sampleEntry (id : ℕ) (ts : ℤ) : RecordingEntry :=
  { id := id, uri := "u", latitude := 0, longitude := 0, timestamp := ts,
    duration := none, averageDecibels := none, peakDecibels := none }

/-- C7 witness: both hypotheses discharged on a concrete two-element list,
once with the sentinel start 0 and once with start 5. -/
theorem c7_filter_by_window_witness :
    filterByWindow [sampleEntry 1 10, sampleEntry 2 200] 0 50 =
      [sampleEntry 1 10, sampleEntry 2 200] ∧
    (sampleEntry 1 10 ∈ filterByWindow [sampleEntry 1 10, sampleEntry 2 200] 5 50 ↔
      sampleEntry 1 10 ∈ [sampleEntry 1 10, sampleEntry 2 200] ∧
        5 ≤ (sampleEntry 1 10).timestamp ∧ (sampleEntry 1 10).timestamp ≤ 50) :=
  ⟨(c7_filter_by_window_spec [sampleEntry 1 10, sampleEntry 2 200] 0 50).1 rfl,
   ((c7_filter_by_window_spec [sampleEntry 1 10, sampleEntry 2 200] 5 50).2
      (by decide)).1 (sampleEntry 1 10)⟩

/-- C8: with no region span the selection is just the tapped recording; with
a nonnegative span the selection holds exactly the candidates within
3500 x span meters of the tapped recording (so the tapped recording itself
is selected whenever it is a candidate), sorted by timestamp descending. -/
theorem c8_select_nearby_spec :
    ∀ (t : RecordingEntry) (span : ℚ) (cands : List RecordingEntry),
      selectNearby t none cands = [t] ∧
      (0 ≤ span →
        (∀ r, r ∈ selectNearby t (some span) cands ↔
            r ∈ cands ∧
              calculateDistance (t.latitude : ℝ) (t.longitude : ℝ)
                (r.latitude : ℝ) (r.longitude : ℝ) ≤ 3500 * (span : ℝ)) ∧
        (t ∈ cands → t ∈ selectNearby t (some span) cands) ∧
        List.Sorted (fun a b : RecordingEntry => b.timestamp ≤ a.timestamp)
          (selectNearby t (some span) cands)) := by
  intro t span cands
  refine ⟨rfl, fun hspan => ?_⟩
  have hmem : ∀ r, r ∈ selectNearby t (some span) cands ↔
      r ∈ cands ∧
        calculateDistance (t.latitude : ℝ) (t.longitude : ℝ)
          (r.latitude : ℝ) (r.longitude : ℝ) ≤ 3500 * (span : ℝ) := by
    intro r
    simp only [selectNearby, List.mem_mergeSort, List.mem_filter,
      decide_eq_true_eq, CLICK_OVERLAP_FACTOR]
    norm_cast
  refine ⟨hmem, fun ht => ?_, ?_⟩
  · refine (hmem t).mpr ⟨ht, ?_⟩
    rw [calculateDistance_self]
    exact mul_nonneg (by norm_num) (by exact_mod_cast hspan)
  · simp only [selectNearby]
    have hp : (List.mergeSort
        (cands.filter (fun r =>
          decide (calculateDistance (t.latitude : ℝ) (t.longitude : ℝ)
            (r.latitude : ℝ) (r.longitude : ℝ) ≤
              (CLICK_OVERLAP_FACTOR : ℝ) * (span : ℝ))))
        (fun a b : RecordingEntry => decide (b.timestamp ≤ a.timestamp))).Pairwise
        (fun a b : RecordingEntry => decide (b.timestamp ≤ a.timestamp) = true) := by
      apply List.sorted_mergeSort
      · intro a b c hab hbc
        simp only [decide_eq_true_eq] at hab hbc ⊢
        exact le_trans hbc hab
      · intro a b
        simp only [Bool.or_eq_true, decide_eq_true_eq]
        exact le_total b.timestamp a.timestamp
    exact hp.imp (fun h => of_decide_eq_true h)

/-- C8 witness: for a concrete recording at the origin with span 1, the
tapped recording is in its own selection; both hypotheses discharged. -/
theorem c8_select_nearby_witness :
    sampleEntry 1 0 ∈ selectNearby (sampleEntry 1 0) (some 1) [sampleEntry 1 0] :=
  ((c8_select_nearby_spec (sampleEntry 1 0) 1 [sampleEntry 1 0]).2
    (by norm_num)).2.1 (by simp)

/-- The session location of the end-to-end scenario: (52.0, 21.0). -/
def c1Location : Coords := ⟨52, 21⟩

/-- The end-to-end run of the zero-metering scenario: start at (52.0, 21.0),
no metering callbacks, stop with the capture service reporting duration 3.2
seconds, successful store write, empty initial store. -/
def c1Stop : StopResult :=
  stopRecording (some ("file.m4a", 16 / 5)) true (some c1Location)
    (startRecording (some c1Location) idleState).state [] 1000

/-- C1 counterexample: in the zero-metering end-to-end run exactly one entry
is written with duration 3.2 and location (52.0, 21.0), but its
averageDecibels and peakDecibels columns are null, not 0: the store coerces
the computed zero aggregates to null through the value-or-null coercion. -/
theorem c1_zero_metering_counterexample :
    c1Stop.store.map (fun e =>
      (e.duration, e.averageDecibels, e.peakDecibels, e.latitude, e.longitude)) =
      [(some (16 / 5), none, none, (52 : ℚ), (21 : ℚ))] ∧
    (none : Option ℚ) ≠ some 0 := by
  constructor
  · norm_num [c1Stop, stopRecording, startRecording, stopDenominator,
      saveRecording, jsOrNull, nextId, c1Location, idleState]
  · simp

/-- C1 amended: the zero-metering end-to-end run writes exactly one entry
with duration 3.2, latitude 52.0 and longitude 21.0, whose averageDecibels
and peakDecibels are null (the controller computes average 0 and peak 0 but
the store maps the falsy 0 to null); success is reported and the controller
ends Idle. -/
theorem c1_zero_metering_amended :
    c1Stop.store =
      [{ id := 1, uri := "file.m4a", latitude := 52, longitude := 21,
         timestamp := 1000, duration := some (16 / 5),
         averageDecibels := none, peakDecibels := none }] ∧
    c1Stop.finalAverageDb = 0 ∧ c1Stop.finalPeakDb = 0 ∧
    c1Stop.successReported = true ∧ c1Stop.state.isRecording = false := by
  refine ⟨?_, ?_, ?_, ?_, ?_⟩ <;>
    norm_num [c1Stop, stopRecording, startRecording, stopDenominator,
      saveRecording, jsOrNull, nextId, c1Location, idleState]

/-- C2 counterexample: when the capture finalize throws during stop of a
capturing session, the error is reported but the controller is NOT left in
Idle: the isRecording flag is still true, contradicting the claim that the
controller is Idle regardless of where the failure occurred. -/
theorem c2_stop_failure_counterexample :
    (stopRecording none true (some c1Location)
        (startRecording (some c1Location) idleState).state [] 0).errorReported = true ∧
    (stopRecording none true (some c1Location)
        (startRecording (some c1Location) idleState).state [] 0).state.isRecording = true := by
  constructor <;> rfl

/-- C2 amended: a failing stop always reports an error to the caller, but
the resulting state depends on where the failure occurred: when the store
write throws the controller is left Idle with the store unchanged, while
when the capture finalize throws the recording flag is left untouched, so a
capturing controller remains in the Capturing state. -/
theorem c2_stop_failure_amended :
    ∀ (s : SessionState) (store : List RecordingEntry) (now : ℤ) (c : Coords)
      (uri : String) (dur : ℚ) (storeWriteOk : Bool),
      ((stopRecording none storeWriteOk (some c) s store now).errorReported = true ∧
       (stopRecording none storeWriteOk (some c) s store now).state.isRecording =
         s.isRecording ∧
       (stopRecording none storeWriteOk (some c) s store now).store = store) ∧
      ((stopRecording (some (uri, dur)) false (some c) s store now).errorReported = true ∧
       (stopRecording (some (uri, dur)) false (some c) s store now).state.isRecording =
         false ∧
       (stopRecording (some (uri, dur)) false (some c) s store now).store = store) := by
  intro s store now c uri dur storeWriteOk
  refine ⟨⟨rfl, rfl, rfl⟩, ⟨?_, ?_, ?_⟩⟩ <;> simp [stopRecording]

/-- C3 counterexample: a session started while the location was (52.0, 21.0)
but stopped after the available location moved to (53.0, 22.0) stores
(53.0, 22.0) — the location current at stop, not the one at session start. -/
theorem c3_location_counterexample :
    (stopRecording (some ("u", 1)) true (some ⟨53, 22⟩)
        (startRecording (some c1Location) idleState).state [] 0).store.map
      (fun e => (e.latitude, e.longitude)) = [((53 : ℚ), (22 : ℚ))] ∧
    ((53 : ℚ), (22 : ℚ)) ≠ ((52 : ℚ), (21 : ℚ)) := by
  constructor
  · norm_num [stopRecording, startRecording, stopDenominator, saveRecording,
      jsOrNull, nextId, c1Location, idleState]
  · simp

/-- C3 amended: the stored coordinates are always those of the location
value current at the stop request; the location passed at session start does
not influence the stored entry (the controller re-reads the live location
when stopping instead of pinning it at start). -/
theorem c3_location_at_stop_amended :
    ∀ (startLoc : Option Coords) (c : Coords) (s0 : SessionState) (uri : String)
      (dur : ℚ) (store : List RecordingEntry) (now : ℤ),
      (stopRecording (some (uri, dur)) true (some c)
          (startRecording startLoc s0).state store now).store.map
        (fun e => (e.latitude, e.longitude)) =
        store.map (fun e => (e.latitude, e.longitude)) ++ [(c.latitude, c.longitude)] := by
  intro startLoc c s0 uri dur store now
  simp [stopRecording, saveRecording]

/-- C4: stopping a capturing session while the current location is null
still finalizes the capture and clears the recording flag, but writes no
store entry and fires neither the success nor the error callback: the
completed recording is dropped silently. -/
theorem c4_null_location_at_stop :
    ∀ (uri : String) (dur : ℚ) (storeWriteOk : Bool) (s : SessionState)
      (store : List RecordingEntry) (now : ℤ),
      (stopRecording (some (uri, dur)) storeWriteOk none s store now).state.isRecording =
        false ∧
      (stopRecording (some (uri, dur)) storeWriteOk none s store now).store = store ∧
      (stopRecording (some (uri, dur)) storeWriteOk none s store now).successReported =
        false ∧
      (stopRecording (some (uri, dur)) storeWriteOk none s store now).errorReported =
        false := by
  intro uri dur storeWriteOk s store now
  exact ⟨rfl, rfl, rfl, rfl⟩

end SoundMap
